import Mathlib

/-!
Verification of the regional aviation batch-collection pipeline
(`aviation_edge_schedule_client.py`, `aviation_database.py`,
`regional_data_collector.py`) via a shallow embedding.

Conventions of the embedding:
* A provider JSON record is a structure of `Option`-valued fields; `none`
  models an absent key (Python `dict.get` returning the default).
* The SQLite store is a `DbState` of row lists.  `INSERT OR REPLACE` on a
  table with `UNIQUE (iata_code)` and `UNIQUE (icao_code)` (the schema
  declared in `AviationDatabase.create_tables`) is modelled by deleting
  every conflicting row and appending the new one; two non-NULL values
  conflict when equal, NULLs never conflict (SQLite semantics).
* The HTTP layer and the provider are oracles: a function from the query
  parameter list to `Except Unit (List ScheduleRec)`; `Except.error`
  models a raised exception, `Except.ok` a parsed response.
* Python truthiness of an optional string (`if x:`) is `some s` with
  `s ≠ ""`.
-/

set_option autoImplicit false

namespace AEP01

/-- Models `airline` sub-object of a timetable record. -/
structure AirlineInfo where
  iataCode : Option String := none
  icaoCode : Option String := none
  name : Option String := none
deriving Repr, DecidableEq

/-- Models `flight` sub-object of a timetable record. -/
structure FlightInfo where
  number : Option String := none
deriving Repr, DecidableEq

/-- Models `departure` / `arrival` sub-object of a timetable record. -/
structure PointInfo where
  iataCode : Option String := none
  icaoCode : Option String := none
  terminal : Option String := none
  scheduledTime : Option String := none
  actualTime : Option String := none
  gate : Option String := none
  delay : Option Int := none
deriving Repr, DecidableEq

/-- Models `codeshared` (timetable) / `codeshare` (future API) sub-object. -/
structure CodeshareInfo where
  airline : Option AirlineInfo := none
  flight : Option FlightInfo := none
deriving Repr, DecidableEq

/-- Models `aircraft` sub-object; the timetable path reads `registration`, the
future-schedules path reads `reg`. -/
structure AircraftInfo where
  registration : Option String := none
  reg : Option String := none
deriving Repr, DecidableEq

/-- One provider schedule record (the nested JSON shape consumed by
`insert_schedule` and the clients). -/
structure ScheduleRec where
  airline : Option AirlineInfo := none
  flight : Option FlightInfo := none
  departure : Option PointInfo := none
  arrival : Option PointInfo := none
  status : Option String := none
  type : Option String := none
  codeshared : Option CodeshareInfo := none
  codeshare : Option CodeshareInfo := none
  aircraft : Option AircraftInfo := none
deriving Repr, DecidableEq

/-- A row of the `airlines` reference table (`iata_code`, `icao_code`,
`name`); `iata_code` is always supplied by the store's inserts. -/
structure AirlineRow where
  iata : String
  icao : Option String
  name : Option String
deriving Repr, DecidableEq

/-- A row of the `airports` reference table. -/
structure AirportRow where
  iata : String
  icao : Option String
  name : Option String
deriving Repr, DecidableEq

/-- A row of the `flight_schedules` fact table (the 21 columns filled by
`insert_schedule`; timestamps omitted). -/
structure ScheduleRow where
  airline_iata : Option String
  airline_icao : Option String
  airline_name : Option String
  flight_number : Option String
  departure_iata : Option String
  departure_icao : Option String
  departure_terminal : Option String
  departure_scheduled_time : Option String
  departure_actual_time : Option String
  arrival_iata : Option String
  arrival_icao : Option String
  arrival_terminal : Option String
  arrival_scheduled_time : Option String
  arrival_actual_time : Option String
  status : Option String
  flight_type : Option String
  codeshare_airline : Option String
  codeshare_flight : Option String
  aircraft_registration : Option String
  gate : Option String
  delay_minutes : Option Int
deriving Repr, DecidableEq

/-- A row of the `api_usage` table written by `log_api_usage`. -/
structure UsageRow where
  endpoint : String
  query_params : List (String × String)
  response_count : Nat
deriving Repr, DecidableEq

/-- The persisted store: the four tables the pipeline writes. -/
structure DbState where
  airlines : List AirlineRow
  airports : List AirportRow
  schedules : List ScheduleRow
  apiUsage : List UsageRow
deriving Repr, DecidableEq

/-- The store as created with no rows. -/
def emptyDb : DbState := ⟨[], [], [], []⟩

/-- SQLite `UNIQUE` conflict between two airline rows: equal `iata_code`,
or equal non-NULL `icao_code` (NULLs never conflict). -/
def airlineConflict (a b : AirlineRow) : Bool :=
  a.iata == b.iata || (a.icao.isSome && b.icao.isSome && a.icao == b.icao)

/-- SQLite `UNIQUE` conflict between two airport rows. -/
def airportConflict (a b : AirportRow) : Bool :=
  a.iata == b.iata || (a.icao.isSome && b.icao.isSome && a.icao == b.icao)

/-- Models `AviationDatabase.insert_airline`: `INSERT OR REPLACE INTO airlines` —
delete every conflicting row, then insert the new row. -/
def insert_airline (db : DbState) (iata : String) (icao name : Option String) : DbState :=
  let newRow : AirlineRow := ⟨iata, icao, name⟩
  { db with airlines := db.airlines.filter (fun r => !(airlineConflict r newRow)) ++ [newRow] }

/-- Models `AviationDatabase.insert_airport`: `INSERT OR REPLACE INTO airports`. -/
def insert_airport (db : DbState) (iata : String) (icao name : Option String) : DbState :=
  let newRow : AirportRow := ⟨iata, icao, name⟩
  { db with airports := db.airports.filter (fun r => !(airportConflict r newRow)) ++ [newRow] }

/-- The `flight_schedules` row built by the `INSERT` of
`AviationDatabase.insert_schedule` (lines 266–298). -/
def scheduleRowOf (r : ScheduleRec) : ScheduleRow :=
  let airline := r.airline.getD {}
  let flight := r.flight.getD {}
  let dep := r.departure.getD {}
  let arr := r.arrival.getD {}
  { airline_iata := airline.iataCode
    airline_icao := airline.icaoCode
    airline_name := airline.name
    flight_number := flight.number
    departure_iata := dep.iataCode
    departure_icao := dep.icaoCode
    departure_terminal := dep.terminal
    departure_scheduled_time := dep.scheduledTime
    departure_actual_time := dep.actualTime
    arrival_iata := arr.iataCode
    arrival_icao := arr.icaoCode
    arrival_terminal := arr.terminal
    arrival_scheduled_time := arr.scheduledTime
    arrival_actual_time := arr.actualTime
    status := r.status
    flight_type := r.type
    codeshare_airline := match r.codeshared with
      | none => none
      | some c => (c.airline.getD {}).name
    codeshare_flight := match r.codeshared with
      | none => none
      | some c => (c.flight.getD {}).number
    aircraft_registration := match r.aircraft with
      | none => none
      | some a => a.registration
    gate := dep.gate
    delay_minutes := dep.delay }

/-- Models `airline_iata = airline.get('iataCode'); if airline_iata:
insert_airline(...)` — the first guarded upsert of `insert_schedule` /
`save_schedule_to_db`. -/
def upsertAirlineStep (db : DbState) (r : ScheduleRec) : DbState :=
  match (r.airline.getD {}).iataCode with
  | some s =>
    if s == "" then db
    else insert_airline db s (r.airline.getD {}).icaoCode (r.airline.getD {}).name
  | none => db

/-- Models `dep_iata = departure.get('iataCode'); if dep_iata:
insert_airport(...)`. -/
def upsertDepStep (db : DbState) (r : ScheduleRec) : DbState :=
  match (r.departure.getD {}).iataCode with
  | some s =>
    if s == "" then db
    else insert_airport db s (r.departure.getD {}).icaoCode none
  | none => db

/-- Models `arr_iata = arrival.get('iataCode'); if arr_iata:
insert_airport(...)`. -/
def upsertArrStep (db : DbState) (r : ScheduleRec) : DbState :=
  match (r.arrival.getD {}).iataCode with
  | some s =>
    if s == "" then db
    else insert_airport db s (r.arrival.getD {}).icaoCode none
  | none => db

/-- The "ensure airlines and airports exist" preamble shared verbatim by
`AviationDatabase.insert_schedule` and the future client's
`save_schedule_to_db`: airline, then departure airport, then arrival
airport. -/
def upsertRefs (db : DbState) (r : ScheduleRec) : DbState :=
  upsertArrStep (upsertDepStep (upsertAirlineStep db r) r) r

/-- Models `AviationDatabase.insert_schedule`: upsert the referenced airline and
airports (each guarded by Python truthiness of the IATA code), then append
one fact row. -/
def insert_schedule (db : DbState) (r : ScheduleRec) : DbState :=
  let db3 := upsertRefs db r
  { db3 with schedules := db3.schedules ++ [scheduleRowOf r] }

/-- Models `AviationDatabase.log_api_usage`: append one `api_usage` row. -/
def log_api_usage (db : DbState) (endpoint : String) (params : List (String × String))
    (count : Nat) : DbState :=
  { db with apiUsage := db.apiUsage ++ [⟨endpoint, params, count⟩] }

/-- The HTTP layer under `AviationEdgeScheduleClient`: given the query
parameters, either a parsed response body or a raised request/parse
exception. -/
abbrev Http := List (String × String) → Except Unit (List ScheduleRec)

/-- A Python-truthy optional query parameter: added only when the value is
a non-empty string (`if iata_code: params[...] = iata_code`). -/
def optParam (name : String) : Option String → List (String × String)
  | some s => if s == "" then [] else [(name, s)]
  | none => []

/-- The `params` dict built by `get_schedules` (lines 41–49): the API key
plus the truthy optional parameters, in insertion order. -/
def get_schedulesParams (key : String) (iata icao ty : Option String) :
    List (String × String) :=
  ("key", key) :: (optParam "iataCode" iata ++ optParam "icaoCode" icao ++ optParam "type" ty)

/-- Models `AviationEdgeScheduleClient.get_schedules`: issue the request; a
`RequestException` or JSON `ValueError` is caught and an empty list
returned (lines 51–60). -/
def get_schedules (http : Http) (key : String) (iata icao ty : Option String) :
    List ScheduleRec :=
  match http (get_schedulesParams key iata icao ty) with
  | .ok v => v
  | .error _ => []

/-- The query parameters `get_departures airport_code` causes to be sent:
length-3 codes go through the `iata_code` argument, all others through
`icao_code` (lines 72–75). -/
def get_departuresSentParams (key code : String) : List (String × String) :=
  if code.length == 3 then get_schedulesParams key (some code) none (some "departure")
  else get_schedulesParams key none (some code) (some "departure")

/-- Models `AviationEdgeScheduleClient.get_departures`. -/
def get_departures (http : Http) (key code : String) : List ScheduleRec :=
  if code.length == 3 then get_schedules http key (some code) none (some "departure")
  else get_schedules http key none (some code) (some "departure")

/-- The query parameters `get_arrivals airport_code` causes to be sent
(lines 87–90). -/
def get_arrivalsSentParams (key code : String) : List (String × String) :=
  if code.length == 3 then get_schedulesParams key (some code) none (some "arrival")
  else get_schedulesParams key none (some code) (some "arrival")

/-- Models `AviationEdgeScheduleClient.get_arrivals`. -/
def get_arrivals (http : Http) (key code : String) : List ScheduleRec :=
  if code.length == 3 then get_schedules http key (some code) none (some "arrival")
  else get_schedules http key none (some code) (some "arrival")

/-- Models `AviationEdgeScheduleClient.filter_by_airline`: keep records whose
`airline.iataCode` or `airline.icaoCode` equals the given code
(case-sensitive; a missing sub-object never matches). -/
def filter_by_airline (schedules : List ScheduleRec) (code : String) : List ScheduleRec :=
  schedules.filter (fun r =>
    let ai := r.airline.getD {}
    ai.iataCode == some code || ai.icaoCode == some code)

/-- The static probe-airport list hard-coded in `get_airline_schedules`
(line 120). -/
def probeAirports : List String :=
  ["MNL", "DVO", "CEB", "ILO", "NRT", "HND", "ICN", "BKK", "SIN", "HKG"]

/-- The dedup key of `get_airline_schedules` (lines 146–150): flight
number, scheduled departure time, departure airport IATA code, each
defaulting to the empty string. -/
def dedupKey (r : ScheduleRec) : String × String × String :=
  ((r.flight.getD {}).number.getD "",
   ((r.departure.getD {}).scheduledTime.getD "",
    (r.departure.getD {}).iataCode.getD ""))

/-- The dedup loop of `get_airline_schedules` (lines 140–154): keep the
first record for each key, tracking seen keys. -/
def dedupLoop : List ScheduleRec → List (String × String × String) → List ScheduleRec
  | [], _ => []
  | r :: rest, seen =>
    if dedupKey r ∈ seen then dedupLoop rest seen
    else r :: dedupLoop rest (dedupKey r :: seen)

/-- Models `AviationEdgeScheduleClient.get_airline_schedules`: fan out over the
probe airports, filter each departure response by airline code, then
dedup on the composite key.  The per-probe `try`/`except` is transparent
here because `get_departures` never raises (it catches internally). -/
def get_airline_schedules (http : Http) (key code : String) : List ScheduleRec :=
  let all := probeAirports.foldl
    (fun acc ap => acc ++ filter_by_airline (get_departures http key ap) code) []
  dedupLoop all []

/-- One collection task of `collect_regional_data`: an airport-departure
call, an airport-arrival call, or an airline-schedule call. -/
inductive ClientCall where
  | dep (a : String)
  | arr (a : String)
  | airline (c : String)
deriving Repr, DecidableEq

/-- The schedule client as seen by the orchestrator: each call returns a
record list or raises (`Except.error`). -/
abbrev Client := ClientCall → Except Unit (List ScheduleRec)

/-- The `total_collected` dict of `collect_regional_data` (line 174):
`routes` (never incremented), `schedules`, `api_calls`, and the
conditionally-added `future_schedules` key (`none` while absent). -/
structure Totals where
  routes : Nat
  schedules : Nat
  apiCalls : Nat
  futureSchedules : Option Nat
deriving Repr, DecidableEq

/-- Models `total_collected` as initialised on line 174. -/
def initTotals : Totals := ⟨0, 0, 0, none⟩

/-- The `query_params` dict passed to `log_api_usage` for each task kind
(lines 191, 203, 217, 231). -/
def taskParams : ClientCall → List (String × String)
  | .dep a => [("iataCode", a), ("type", "departure")]
  | .arr a => [("iataCode", a), ("type", "arrival")]
  | .airline c => [("airlineIata", c)]

/-- One task body of `collect_regional_data` (e.g. lines 187–197): call
the client; on success insert every record, log one usage row with the
response count, and bump the counters; on any exception print and leave
the state unchanged (the `except` branch). -/
def runTask (client : Client) (st : DbState × Totals) (t : ClientCall) : DbState × Totals :=
  match client t with
  | .error _ => st
  | .ok recs =>
    let db1 := recs.foldl insert_schedule st.1
    let db2 := log_api_usage db1 "/timetable" (taskParams t) recs.length
    (db2, { st.2 with
      schedules := st.2.schedules + recs.length
      apiCalls := st.2.apiCalls + 1 })

/-- One region of `self.regions`: major airports, domestic hubs, major
airlines. -/
structure RegionConfig where
  major_airports : List String
  domestic_hubs : List String
  major_airlines : List String
deriving Repr, DecidableEq

/-- The ordered task list one region produces (lines 183–236): for each
major airport a departure and an arrival task, then a second departure
pass over the major airports (the routes-replacement loop), then one task
per major airline. -/
def regionTasks (cfg : RegionConfig) : List ClientCall :=
  (cfg.major_airports.flatMap (fun a => [ClientCall.dep a, ClientCall.arr a]))
    ++ cfg.major_airports.map ClientCall.dep
    ++ cfg.major_airlines.map ClientCall.airline

/-- The future-schedules client as seen by the orchestrator: per probed
airport either a raised exception or the (departures, arrivals) record
lists of `collect_airport_future_data`. -/
abbrev FutureOracle := String → Except Unit (List ScheduleRec × List ScheduleRec)

/-- The `flight_schedules` row built by the future client's
`save_schedule_to_db` (it reads the `codeshare` key, `aircraft.reg`, and
defaults `status`/`type` to `scheduled`/`passenger`). -/
def futureRowOf (r : ScheduleRec) : ScheduleRow :=
  let airline := r.airline.getD {}
  let flight := r.flight.getD {}
  let dep := r.departure.getD {}
  let arr := r.arrival.getD {}
  { airline_iata := airline.iataCode
    airline_icao := airline.icaoCode
    airline_name := airline.name
    flight_number := flight.number
    departure_iata := dep.iataCode
    departure_icao := dep.icaoCode
    departure_terminal := dep.terminal
    departure_scheduled_time := dep.scheduledTime
    departure_actual_time := dep.actualTime
    arrival_iata := arr.iataCode
    arrival_icao := arr.icaoCode
    arrival_terminal := arr.terminal
    arrival_scheduled_time := arr.scheduledTime
    arrival_actual_time := arr.actualTime
    status := some (r.status.getD "scheduled")
    flight_type := some (r.type.getD "passenger")
    codeshare_airline := match r.codeshare with
      | none => none
      | some c => (c.airline.getD {}).name
    codeshare_flight := match r.codeshare with
      | none => none
      | some c => (c.flight.getD {}).number
    aircraft_registration := match r.aircraft with
      | none => none
      | some a => a.reg
    gate := dep.gate
    delay_minutes := dep.delay }

/-- Models `AviationEdgeFutureSchedulesClient.save_schedule_to_db`: same upsert
preamble as `insert_schedule`, then append the future-shaped fact row. -/
def save_schedule_to_db (db : DbState) (r : ScheduleRec) : DbState :=
  let db3 := upsertRefs db r
  { db3 with schedules := db3.schedules ++ [futureRowOf r] }

/-- Models `collect_airport_future_data` for one airport: fetch-and-save the
future departures and arrivals, returning the updated store and
`statistics.total_flights`. -/
def collect_airport_future_data (fut : FutureOracle) (db : DbState) (ap : String) :
    Except Unit (DbState × Nat) :=
  match fut ap with
  | .error e => .error e
  | .ok (deps, arrs) =>
    let db1 := deps.foldl save_schedule_to_db db
    let db2 := arrs.foldl save_schedule_to_db db1
    .ok (db2, deps.length + arrs.length)

/-- The loop body of the future-schedules block (lines 246–252): probe
each airport in turn; a raised exception is caught by the single `try`
around the whole loop, so it aborts the remaining probes; a probe with a
positive flight count adds to the `future_schedules` counter. -/
def futureLoop (fut : FutureOracle) : List String → DbState × Totals → DbState × Totals
  | [], st => st
  | ap :: rest, (db, t) =>
    match collect_airport_future_data fut db ap with
    | .error _ => (db, t)
    | .ok (db2, n) =>
      let t2 := if n > 0 then
          { t with futureSchedules := some (t.futureSchedules.getD 0 + n) }
        else t
      futureLoop fut rest (db2, t2)

/-- The future-schedules block of a region (lines 239–256):
`is_available` is hard-coded `True` in the future client, so the block
always runs, over the first 3 major airports. -/
def futureBlock (fut : FutureOracle) (cfg : RegionConfig) (st : DbState × Totals) :
    DbState × Totals :=
  futureLoop fut (cfg.major_airports.take 3) st

/-- One region of `collect_regional_data`: all scheduled tasks in order,
then the future-schedules block. -/
def runRegion (client : Client) (fut : FutureOracle) (cfg : RegionConfig)
    (st : DbState × Totals) : DbState × Totals :=
  futureBlock fut cfg ((regionTasks cfg).foldl (runTask client) st)

/-- Models `collect_regional_data(execute=True)`: process the configured regions
in order.  The Python function prints its totals and returns `None`; the
model exposes the final store and the `total_collected` counters. -/
def collectRegionalData (client : Client) (fut : FutureOracle) (cfgs : List RegionConfig)
    (st : DbState × Totals) : DbState × Totals :=
  cfgs.foldl (fun s cfg => runRegion client fut cfg s) st

/-- The schedule client with a failure set injected: calls in `F` raise,
all others behave as `good`. -/
def failingClient (good : Client) (F : ClientCall → Bool) : Client :=
  fun t => if F t then .error () else good t

/-- A small well-formed provider record: airline code, flight number,
departure airport and scheduled time, arrival airport. -/
def mkRec (al fn dep tm arrv : String) : ScheduleRec :=
  { airline := some { iataCode := some al }
    flight := some { number := some fn }
    departure := some { iataCode := some dep, scheduledTime := some tm }
    arrival := some { iataCode := some arrv } }

/-- Sample records for concrete runs. -/
def srec1 : ScheduleRec := mkRec "ZZ" "Z1" "AAA" "t1" "BBB"

def srec2 : ScheduleRec := mkRec "ZZ" "Z2" "AAA" "t2" "BBB"

def srec3 : ScheduleRec := mkRec "ZZ" "Z3" "AAA" "t3" "BBB"

/-- A future oracle whose probes always succeed with empty responses (the
behaviour observed when `/flightsFuture` 404s: the client catches and
returns `[]`). -/
def futNone : FutureOracle := fun _ => .ok ([], [])

/-- Client stub for the C1 witness: one departure record at MNL. -/
def c1Client : Client := fun t =>
  match t with
  | .dep "MNL" => .ok [srec1]
  | _ => .ok []

/-- Record for the C2 counterexample: an empty-string airline IATA code,
and departure/arrival airports with distinct IATA codes sharing one ICAO
code. -/
def c2CexRec : ScheduleRec :=
  { airline := some { iataCode := some "" }
    departure := some { iataCode := some "AAA", icaoCode := some "QQQQ" }
    arrival := some { iataCode := some "BBB", icaoCode := some "QQQQ" } }

/-- Record for the C2 witness: a collision-free record. -/
def c2WitRec : ScheduleRec := mkRec "PR" "101" "MNL" "t" "POM"

/-- Well-behaved client for the C3 counterexample run. -/
def c3Good : Client := fun _ => .ok [srec1, srec2, srec3]

/-- Failure set for the C3 counterexample run: every airline task raises. -/
def c3F : ClientCall → Bool := fun t =>
  match t with
  | .airline _ => true
  | _ => false

/-- Region for the C3 counterexample run: one airport, two airlines. -/
def c3Cfg : RegionConfig := ⟨["AAA"], [], ["X1", "X2"]⟩

/-- API key used by the concrete client stubs. -/
def c5Key : String := "k"

/-- The four raw records the C5 airline probe returns: all airline `XX`,
the fourth sharing the dedup key (flight number, scheduled departure
time, departure IATA) with the first. -/
def c5p1 : ScheduleRec := mkRec "XX" "P1" "MNL" "t1" "CCC"

def c5p2 : ScheduleRec := mkRec "XX" "P2" "MNL" "t2" "CCC"

def c5p3 : ScheduleRec := mkRec "XX" "P3" "MNL" "t3" "CCC"

def c5p4 : ScheduleRec := mkRec "XX" "P1" "MNL" "t1" "DDD"

/-- HTTP stub for the C5 scenario: the MNL departure probe returns the
four raw airline records, every other request returns nothing. -/
def c5Http : Http := fun ps =>
  if ps = get_schedulesParams c5Key (some "MNL") none (some "departure") then
    .ok [c5p1, c5p2, c5p3, c5p4]
  else .ok []

/-- Client stub for the C5 scenario: 3 records per airport-departure
call, 2 per airport-arrival call, and the airline task computed through
`get_airline_schedules` over `c5Http`. -/
def c5Client : Client := fun t =>
  match t with
  | .dep _ => .ok [srec1, srec2, srec3]
  | .arr _ => .ok [srec1, srec2]
  | .airline c => .ok (get_airline_schedules c5Http c5Key c)

/-- The C5 region: 2 major airports, 1 major airline. -/
def c5Cfg : RegionConfig := ⟨["AAA", "BBB"], ["AAA"], ["XX"]⟩

/-- Well-behaved client for the C9 counterexample run. -/
def c9Good : Client := fun t =>
  match t with
  | .airline _ => .ok [srec1, srec2]
  | _ => .ok [srec1, srec2, srec3]

/-- Failure set for the C9 counterexample run: the arrival task raises. -/
def c9F : ClientCall → Bool := fun t =>
  match t with
  | .arr _ => true
  | _ => false

/-- Region for the C9 counterexample run: one airport, one airline. -/
def c9Cfg : RegionConfig := ⟨["AAA"], [], ["X1"]⟩

/-- HTTP stub for the C10 counterexample: responds with one record
exactly when the request carries neither an `iataCode` nor an `icaoCode`
parameter. -/
def c10Http : Http := fun ps =>
  if ps = [("key", "k"), ("type", "departure")] then .ok [srec1] else .ok []

/-! ## Store lemmas -/

@[simp] theorem insert_airline_airports (db : DbState) (c : String) (i n : Option String) :
    (insert_airline db c i n).airports = db.airports := rfl

@[simp] theorem insert_airline_schedules (db : DbState) (c : String) (i n : Option String) :
    (insert_airline db c i n).schedules = db.schedules := rfl

@[simp] theorem insert_airline_apiUsage (db : DbState) (c : String) (i n : Option String) :
    (insert_airline db c i n).apiUsage = db.apiUsage := rfl

@[simp] theorem insert_airport_airlines (db : DbState) (c : String) (i n : Option String) :
    (insert_airport db c i n).airlines = db.airlines := rfl

@[simp] theorem insert_airport_schedules (db : DbState) (c : String) (i n : Option String) :
    (insert_airport db c i n).schedules = db.schedules := rfl

@[simp] theorem insert_airport_apiUsage (db : DbState) (c : String) (i n : Option String) :
    (insert_airport db c i n).apiUsage = db.apiUsage := rfl

@[simp] theorem upsertAirlineStep_airports (db : DbState) (r : ScheduleRec) :
    (upsertAirlineStep db r).airports = db.airports := by
  unfold upsertAirlineStep
  repeat' split
  all_goals rfl

@[simp] theorem upsertAirlineStep_schedules (db : DbState) (r : ScheduleRec) :
    (upsertAirlineStep db r).schedules = db.schedules := by
  unfold upsertAirlineStep
  repeat' split
  all_goals rfl

@[simp] theorem upsertAirlineStep_apiUsage (db : DbState) (r : ScheduleRec) :
    (upsertAirlineStep db r).apiUsage = db.apiUsage := by
  unfold upsertAirlineStep
  repeat' split
  all_goals rfl

@[simp] theorem upsertDepStep_airlines (db : DbState) (r : ScheduleRec) :
    (upsertDepStep db r).airlines = db.airlines := by
  unfold upsertDepStep
  repeat' split
  all_goals rfl

@[simp] theorem upsertDepStep_schedules (db : DbState) (r : ScheduleRec) :
    (upsertDepStep db r).schedules = db.schedules := by
  unfold upsertDepStep
  repeat' split
  all_goals rfl

@[simp] theorem upsertDepStep_apiUsage (db : DbState) (r : ScheduleRec) :
    (upsertDepStep db r).apiUsage = db.apiUsage := by
  unfold upsertDepStep
  repeat' split
  all_goals rfl

@[simp] theorem upsertArrStep_airlines (db : DbState) (r : ScheduleRec) :
    (upsertArrStep db r).airlines = db.airlines := by
  unfold upsertArrStep
  repeat' split
  all_goals rfl

@[simp] theorem upsertArrStep_schedules (db : DbState) (r : ScheduleRec) :
    (upsertArrStep db r).schedules = db.schedules := by
  unfold upsertArrStep
  repeat' split
  all_goals rfl

@[simp] theorem upsertArrStep_apiUsage (db : DbState) (r : ScheduleRec) :
    (upsertArrStep db r).apiUsage = db.apiUsage := by
  unfold upsertArrStep
  repeat' split
  all_goals rfl

@[simp] theorem upsertRefs_schedules (db : DbState) (r : ScheduleRec) :
    (upsertRefs db r).schedules = db.schedules := by
  simp [upsertRefs]

@[simp] theorem upsertRefs_apiUsage (db : DbState) (r : ScheduleRec) :
    (upsertRefs db r).apiUsage = db.apiUsage := by
  simp [upsertRefs]

@[simp] theorem insert_schedule_schedules (db : DbState) (r : ScheduleRec) :
    (insert_schedule db r).schedules = db.schedules ++ [scheduleRowOf r] := by
  show (upsertRefs db r).schedules ++ [scheduleRowOf r] = db.schedules ++ [scheduleRowOf r]
  rw [upsertRefs_schedules]

@[simp] theorem insert_schedule_apiUsage (db : DbState) (r : ScheduleRec) :
    (insert_schedule db r).apiUsage = db.apiUsage := by
  show (upsertRefs db r).apiUsage = db.apiUsage
  rw [upsertRefs_apiUsage]

theorem foldl_insert_schedule_schedules (rs : List ScheduleRec) (db : DbState) :
    (rs.foldl insert_schedule db).schedules = db.schedules ++ rs.map scheduleRowOf := by
  induction rs generalizing db with
  | nil => simp
  | cons r rs ih => simp [ih]

theorem foldl_insert_schedule_apiUsage (rs : List ScheduleRec) (db : DbState) :
    (rs.foldl insert_schedule db).apiUsage = db.apiUsage := by
  induction rs generalizing db with
  | nil => simp
  | cons r rs ih => simp [ih]

/-! ## C1: one task appends N fact rows and one usage row -/

/-- C1.  For every (region, airport) task execution in which the client
returns a list of N records, exactly N fact rows are appended to
`flight_schedules` (one `insert_schedule` per record, each appending one
row) and exactly one `api_usage` row with `response_count = N` is written
— for both the departure and the arrival task kind. -/
theorem airport_task_persists_counts (client : Client) (db : DbState) (tot : Totals)
    (ap : String) (recsD recsA : List ScheduleRec)
    (hD : client (.dep ap) = .ok recsD) (hA : client (.arr ap) = .ok recsA) :
    ((runTask client (db, tot) (.dep ap)).1.schedules = db.schedules ++ recsD.map scheduleRowOf)
    ∧ ((runTask client (db, tot) (.dep ap)).1.schedules.length
        = db.schedules.length + recsD.length)
    ∧ ((runTask client (db, tot) (.dep ap)).1.apiUsage = db.apiUsage
        ++ [⟨"/timetable", [("iataCode", ap), ("type", "departure")], recsD.length⟩])
    ∧ ((runTask client (db, tot) (.arr ap)).1.schedules = db.schedules ++ recsA.map scheduleRowOf)
    ∧ ((runTask client (db, tot) (.arr ap)).1.schedules.length
        = db.schedules.length + recsA.length)
    ∧ ((runTask client (db, tot) (.arr ap)).1.apiUsage = db.apiUsage
        ++ [⟨"/timetable", [("iataCode", ap), ("type", "arrival")], recsA.length⟩]) := by
  unfold runTask
  rw [hD, hA]
  simp [log_api_usage, taskParams, foldl_insert_schedule_schedules, foldl_insert_schedule_apiUsage]

/-- Witness for C1 at a concrete client, store and airport. -/
theorem airport_task_persists_counts_witness :
    (runTask c1Client (emptyDb, initTotals) (.dep "MNL")).1.schedules
      = emptyDb.schedules ++ [srec1].map scheduleRowOf :=
  (airport_task_persists_counts c1Client emptyDb initTotals "MNL" [srec1] []
    (by rfl) (by rfl)).1

/-! ## C6 / C8: upsert semantics of the reference tables -/

theorem airline_filter_insert (l : List AirlineRow) (c : String) (i n : Option String) :
    ((l.filter fun r => !(airlineConflict r ⟨c, i, n⟩)) ++ [(⟨c, i, n⟩ : AirlineRow)]).filter
      (fun r => r.iata == c) = [⟨c, i, n⟩] := by
  induction l with
  | nil => simp
  | cons a l ih =>
    by_cases hc : airlineConflict a ⟨c, i, n⟩ = true
    · simp only [List.filter_cons, hc, Bool.not_true, cond_false]
      exact ih
    · have hne : (a.iata == c) = false := by
        unfold airlineConflict at hc
        simp only [Bool.or_eq_true, beq_iff_eq, Bool.and_eq_true] at hc
        push_neg at hc
        simp [hc.1]
      rw [Bool.not_eq_true] at hc
      simp [List.filter_cons, hc, hne, ih]

theorem airport_filter_insert (l : List AirportRow) (c : String) (i n : Option String) :
    ((l.filter fun r => !(airportConflict r ⟨c, i, n⟩)) ++ [(⟨c, i, n⟩ : AirportRow)]).filter
      (fun r => r.iata == c) = [⟨c, i, n⟩] := by
  induction l with
  | nil => simp
  | cons a l ih =>
    by_cases hc : airportConflict a ⟨c, i, n⟩ = true
    · simp only [List.filter_cons, hc, Bool.not_true, cond_false]
      exact ih
    · have hne : (a.iata == c) = false := by
        unfold airportConflict at hc
        simp only [Bool.or_eq_true, beq_iff_eq, Bool.and_eq_true] at hc
        push_neg at hc
        simp [hc.1]
      rw [Bool.not_eq_true] at hc
      simp [List.filter_cons, hc, hne, ih]

/-- After any single `insert_airline`, the rows keyed by that code are
exactly the newly inserted row. -/
theorem filter_insert_airline (db : DbState) (c : String) (i n : Option String) :
    (insert_airline db c i n).airlines.filter (fun r => r.iata == c) = [⟨c, i, n⟩] := by
  unfold insert_airline
  exact airline_filter_insert db.airlines c i n

/-- After any single `insert_airport`, the rows keyed by that code are
exactly the newly inserted row. -/
theorem filter_insert_airport (db : DbState) (c : String) (i n : Option String) :
    (insert_airport db c i n).airports.filter (fun r => r.iata == c) = [⟨c, i, n⟩] := by
  unfold insert_airport
  exact airport_filter_insert db.airports c i n

/-- C6.  Upserting the same airline code twice leaves exactly one
`airlines` row keyed by that code, carrying the second call's ICAO code
and name (last write wins), from any starting store. -/
theorem insert_airline_last_write_wins (db : DbState) (c : String)
    (i1 n1 i2 n2 : Option String) :
    (insert_airline (insert_airline db c i1 n1) c i2 n2).airlines.filter
      (fun r => r.iata == c) = [⟨c, i2, n2⟩] :=
  filter_insert_airline (insert_airline db c i1 n1) c i2 n2

/-- C8.  Re-upserting a code with the optional fields omitted (`None`)
overwrites any stored non-null ICAO code and name with null, still
leaving exactly one row for that code — for airlines and airports. -/
theorem upsert_missing_fields_overwrite (db : DbState) (c : String) (i n : Option String)
    (h : i.isSome ∨ n.isSome) :
    ((insert_airline (insert_airline db c i n) c none none).airlines.filter
        (fun r => r.iata == c) = [⟨c, none, none⟩])
    ∧ ((insert_airport (insert_airport db c i n) c none none).airports.filter
        (fun r => r.iata == c) = [⟨c, none, none⟩]) :=
  ⟨filter_insert_airline (insert_airline db c i n) c none none,
   filter_insert_airport (insert_airport db c i n) c none none⟩

/-- Witness for C8 at a concrete airline with non-null stored fields. -/
theorem upsert_missing_fields_overwrite_witness :
    (insert_airline (insert_airline emptyDb "LH" (some "DLH") (some "Lufthansa"))
        "LH" none none).airlines.filter (fun r => r.iata == "LH") = [⟨"LH", none, none⟩] :=
  (upsert_missing_fields_overwrite emptyDb "LH" (some "DLH") (some "Lufthansa")
    (Or.inl rfl)).1

/-! ## C4: HTTP-layer failures are mapped to the empty list -/

/-- C4 counterexample.  At a concrete request, a raised HTTP-layer
exception produces exactly the same result as a successful zero-record
response — the failure is caught inside `get_schedules` and mapped to
`[]`, so no exception reaches the caller and the two are
indistinguishable. -/
theorem get_schedules_failure_cex :
    get_schedules (fun _ => Except.error ()) "k" (some "LHR") none (some "departure") = []
    ∧ get_schedules (fun _ => Except.ok []) "k" (some "LHR") none (some "departure") = [] :=
  ⟨rfl, rfl⟩

/-- C4 amended.  `get_schedules` catches every HTTP-layer failure
(`RequestException`, JSON `ValueError`) and returns the empty list, for
every request; the result is identical to a successful empty response,
and no exception is surfaced to the caller. -/
theorem get_schedules_failure_returns_empty (key : String) (iata icao ty : Option String) :
    get_schedules (fun _ => Except.error ()) key iata icao ty = []
    ∧ get_schedules (fun _ => Except.ok []) key iata icao ty = [] :=
  ⟨rfl, rfl⟩

/-! ## C10: airport-code parameter routing -/

theorem mem_optParam (nm nm2 x : String) (o : Option String) :
    ((nm2, x) ∈ optParam nm o) ↔ (nm2 = nm ∧ o = some x ∧ x ≠ "") := by
  rcases o with _ | s
  · simp [optParam]
  · by_cases hs : s = ""
    · subst hs
      constructor
      · intro hmem
        simp [optParam] at hmem
      · rintro ⟨-, h2, h3⟩
        cases h2
        exact absurd rfl h3
    · have hb : (s == "") = false := by simpa using hs
      simp only [optParam, hb, Bool.false_eq_true, if_false, List.mem_singleton,
        Prod.mk.injEq, Option.some.injEq]
      constructor
      · rintro ⟨rfl, rfl⟩
        exact ⟨rfl, rfl, hs⟩
      · rintro ⟨rfl, rfl, -⟩
        exact ⟨rfl, rfl⟩

theorem mem_get_schedulesParams (nm x key : String) (iata icao ty : Option String) :
    ((nm, x) ∈ get_schedulesParams key iata icao ty)
      ↔ ((nm = "key" ∧ x = key) ∨ (nm = "iataCode" ∧ iata = some x ∧ x ≠ "")
          ∨ (nm = "icaoCode" ∧ icao = some x ∧ x ≠ "")
          ∨ (nm = "type" ∧ ty = some x ∧ x ≠ "")) := by
  unfold get_schedulesParams
  simp [List.mem_cons, List.mem_append, mem_optParam, Prod.ext_iff, or_assoc]

/-- C10 counterexample.  For the empty airport code (length 0 ≠ 3) the
claim says the code is sent as the `icaoCode` parameter; in fact neither
parameter is sent: the request carries only the key and the type, as
witnessed by an oracle that answers only that bare request. -/
theorem empty_airport_code_cex :
    get_departuresSentParams "k" "" = [("key", "k"), ("type", "departure")]
    ∧ get_departures c10Http "k" "" = [srec1]
    ∧ ("" : String).length ≠ 3 := by
  refine ⟨rfl, rfl, by decide⟩

/-- C10 amended.  For every non-empty airport code, `get_departures`
(resp. `get_arrivals`) issues exactly one request whose parameters carry
the code as `iataCode` precisely when its length is 3 and as `icaoCode`
precisely otherwise (no validation of content), with the `type`
parameter fixed to `departure` (resp. `arrival`).  The empty string is
excluded: it is sent as neither parameter. -/
theorem airport_code_param_routing (http : Http) (key code : String) (h : code ≠ "") :
    (get_departures http key code = match http (get_departuresSentParams key code) with
      | .ok v => v
      | .error _ => [])
    ∧ (("iataCode", code) ∈ get_departuresSentParams key code ↔ code.length = 3)
    ∧ (("icaoCode", code) ∈ get_departuresSentParams key code ↔ code.length ≠ 3)
    ∧ (("type", "departure") ∈ get_departuresSentParams key code)
    ∧ (get_arrivals http key code = match http (get_arrivalsSentParams key code) with
      | .ok v => v
      | .error _ => [])
    ∧ (("iataCode", code) ∈ get_arrivalsSentParams key code ↔ code.length = 3)
    ∧ (("icaoCode", code) ∈ get_arrivalsSentParams key code ↔ code.length ≠ 3)
    ∧ (("type", "arrival") ∈ get_arrivalsSentParams key code) := by
  by_cases hl : code.length = 3
  · have hb : (code.length == 3) = true := by simpa using hl
    unfold get_departures get_arrivals get_departuresSentParams get_arrivalsSentParams
    rw [hb]
    simp [get_schedules, mem_get_schedulesParams, hl, h]
  · have hb : (code.length == 3) = false := by simpa using hl
    unfold get_departures get_arrivals get_departuresSentParams get_arrivalsSentParams
    rw [hb]
    simp [get_schedules, mem_get_schedulesParams, hl, h]

/-- Witness for C10 at a length-3 code. -/
theorem airport_code_param_routing_witness :
    ("iataCode", "LHR") ∈ get_departuresSentParams "k" "LHR" :=
  (airport_code_param_routing (fun _ => Except.ok []) "k" "LHR" (by decide)).2.1.mpr (by decide)

/-! ## C2: referential completeness of insert_schedule -/

theorem mem_insert_airline_self (db : DbState) (c : String) (i n : Option String) :
    (⟨c, i, n⟩ : AirlineRow) ∈ (insert_airline db c i n).airlines := by
  simp [insert_airline]

theorem mem_insert_airport_self (db : DbState) (c : String) (i n : Option String) :
    (⟨c, i, n⟩ : AirportRow) ∈ (insert_airport db c i n).airports := by
  simp [insert_airport]

theorem mem_insert_airport_of_no_conflict (db : DbState) (c : String) (i n : Option String)
    (row : AirportRow) (hm : row ∈ db.airports)
    (hnc : airportConflict row ⟨c, i, n⟩ = false) :
    row ∈ (insert_airport db c i n).airports := by
  unfold insert_airport
  refine List.mem_append.mpr (Or.inl ?_)
  exact List.mem_filter.mpr ⟨hm, by simp [hnc]⟩

/-- C2 amended.  `insert_schedule` upserts the referenced airline and
airport codes strictly before appending the fact row, so immediately
after the call every *non-empty* IATA code stored on the new fact row
(the row's foreign-key columns) exists in its reference table — provided
the departure and arrival airports do not carry the same non-null ICAO
code under different IATA codes (in that case the later arrival upsert's
`INSERT OR REPLACE` deletes the departure airport's row).  Empty-string
codes are skipped by the Python truthiness guard yet still stored on the
fact row, hence the non-empty proviso. -/
theorem insert_schedule_ref_completeness (db : DbState) (r : ScheduleRec)
    (h : ∀ x, (r.departure.getD {}).icaoCode = some x →
      (r.arrival.getD {}).icaoCode = some x →
      (r.departure.getD {}).iataCode = (r.arrival.getD {}).iataCode) :
    (∀ c, (scheduleRowOf r).airline_iata = some c → c ≠ "" →
      ∃ row ∈ (insert_schedule db r).airlines, row.iata = c)
    ∧ (∀ c, (scheduleRowOf r).departure_iata = some c → c ≠ "" →
      ∃ row ∈ (insert_schedule db r).airports, row.iata = c)
    ∧ (∀ c, (scheduleRowOf r).arrival_iata = some c → c ≠ "" →
      ∃ row ∈ (insert_schedule db r).airports, row.iata = c) := by
  have hgoalL : (insert_schedule db r).airlines
      = (upsertArrStep (upsertDepStep (upsertAirlineStep db r) r) r).airlines := rfl
  have hgoalP : (insert_schedule db r).airports
      = (upsertArrStep (upsertDepStep (upsertAirlineStep db r) r) r).airports := rfl
  refine ⟨?_, ?_, ?_⟩
  · -- airline code
    intro c hc hne
    have hc2 : (r.airline.getD {}).iataCode = some c := hc
    have hbe : (c == "") = false := by simpa using hne
    have hstep : upsertAirlineStep db r
        = insert_airline db c (r.airline.getD {}).icaoCode (r.airline.getD {}).name := by
      unfold upsertAirlineStep
      rw [hc2]
      simp [hbe]
    refine ⟨⟨c, (r.airline.getD {}).icaoCode, (r.airline.getD {}).name⟩, ?_, rfl⟩
    rw [hgoalL, upsertArrStep_airlines, upsertDepStep_airlines, hstep]
    exact mem_insert_airline_self db c _ _
  · -- departure airport code
    intro c hc hne
    have hc2 : (r.departure.getD {}).iataCode = some c := hc
    have hbe : (c == "") = false := by simpa using hne
    have hstepD : upsertDepStep (upsertAirlineStep db r) r
        = insert_airport (upsertAirlineStep db r) c ((r.departure.getD {}).icaoCode) none := by
      unfold upsertDepStep
      rw [hc2]
      simp [hbe]
    have hmemD : (⟨c, (r.departure.getD {}).icaoCode, none⟩ : AirportRow)
        ∈ (upsertDepStep (upsertAirlineStep db r) r).airports := by
      rw [hstepD]
      exact mem_insert_airport_self _ c _ none
    rcases harr : (r.arrival.getD {}).iataCode with _ | s
    · have hstepA : upsertArrStep (upsertDepStep (upsertAirlineStep db r) r) r
          = upsertDepStep (upsertAirlineStep db r) r := by
        unfold upsertArrStep
        rw [harr]
      refine ⟨⟨c, (r.departure.getD {}).icaoCode, none⟩, ?_, rfl⟩
      rw [hgoalP, hstepA]
      exact hmemD
    · by_cases hse : s = ""
      · have hsb : (s == "") = true := by simp [hse]
        have hstepA : upsertArrStep (upsertDepStep (upsertAirlineStep db r) r) r
            = upsertDepStep (upsertAirlineStep db r) r := by
          unfold upsertArrStep
          rw [harr]
          simp [hsb]
        refine ⟨⟨c, (r.departure.getD {}).icaoCode, none⟩, ?_, rfl⟩
        rw [hgoalP, hstepA]
        exact hmemD
      · have hsb : (s == "") = false := by simpa using hse
        have hstepA : upsertArrStep (upsertDepStep (upsertAirlineStep db r) r) r
            = insert_airport (upsertDepStep (upsertAirlineStep db r) r) s
                ((r.arrival.getD {}).icaoCode) none := by
          unfold upsertArrStep
          rw [harr]
          simp [hsb]
        by_cases hcf : airportConflict ⟨c, (r.departure.getD {}).icaoCode, none⟩
            ⟨s, (r.arrival.getD {}).icaoCode, none⟩ = true
        · have hcs : c = s := by
            unfold airportConflict at hcf
            simp only [Bool.or_eq_true, beq_iff_eq, Bool.and_eq_true] at hcf
            rcases hcf with hcs | ⟨⟨h1, h2⟩, h3⟩
            · exact hcs
            · obtain ⟨x, hx⟩ := Option.isSome_iff_exists.mp h1
              have hx2 : (r.arrival.getD {}).icaoCode = some x := by
                rw [← h3]
                exact hx
              have hiata := h x hx hx2
              rw [hc2, harr] at hiata
              simpa using hiata
          refine ⟨⟨s, (r.arrival.getD {}).icaoCode, none⟩, ?_, hcs.symm⟩
          rw [hgoalP, hstepA]
          exact mem_insert_airport_self _ s _ none
        · rw [Bool.not_eq_true] at hcf
          refine ⟨⟨c, (r.departure.getD {}).icaoCode, none⟩, ?_, rfl⟩
          rw [hgoalP, hstepA]
          exact mem_insert_airport_of_no_conflict _ s _ none _ hmemD hcf
  · -- arrival airport code
    intro c hc hne
    have hc2 : (r.arrival.getD {}).iataCode = some c := hc
    have hbe : (c == "") = false := by simpa using hne
    have hstepA : upsertArrStep (upsertDepStep (upsertAirlineStep db r) r) r
        = insert_airport (upsertDepStep (upsertAirlineStep db r) r) c
            ((r.arrival.getD {}).icaoCode) none := by
      unfold upsertArrStep
      rw [hc2]
      simp [hbe]
    refine ⟨⟨c, (r.arrival.getD {}).icaoCode, none⟩, ?_, rfl⟩
    rw [hgoalP, hstepA]
    exact mem_insert_airport_self _ c _ none

/-- C2 counterexample.  One record violates the claim as stated twice
over: its empty-string airline IATA code is stored on the fact row but
never upserted (`airlines` stays empty), and its arrival airport shares
the departure airport's ICAO code, so the replace-semantics upsert of
the arrival deletes the departure airport's freshly inserted reference
row — the fact row's `departure_iata` (`AAA`) has no `airports` row. -/
theorem insert_schedule_ref_cex :
    ((scheduleRowOf c2CexRec).airline_iata = some "")
    ∧ ((insert_schedule emptyDb c2CexRec).airlines = [])
    ∧ ((scheduleRowOf c2CexRec).departure_iata = some "AAA")
    ∧ ((insert_schedule emptyDb c2CexRec).airports.all
        (fun row => !(row.iata == "AAA")) = true) := by
  decide

/-- Witness for C2 at a concrete collision-free record. -/
theorem insert_schedule_ref_completeness_witness :
    ∃ row ∈ (insert_schedule emptyDb c2WitRec).airlines, row.iata = "PR" :=
  (insert_schedule_ref_completeness emptyDb c2WitRec
    (fun x hx _ => by simp [c2WitRec, mkRec] at hx)).1 "PR" rfl (by decide)

/-! ## C7: airline fan-out filtering and dedup -/

theorem dedupLoop_subset (l : List ScheduleRec) (seen : List (String × String × String)) :
    ∀ r ∈ dedupLoop l seen, r ∈ l := by
  induction l generalizing seen with
  | nil =>
    intro r hr
    simp [dedupLoop] at hr
  | cons a l ih =>
    intro r hr
    unfold dedupLoop at hr
    by_cases hc : dedupKey a ∈ seen
    · simp only [hc, if_true] at hr
      exact List.mem_cons_of_mem _ (ih seen r hr)
    · simp only [hc, if_false] at hr
      rcases List.mem_cons.mp hr with rfl | hr2
      · exact List.mem_cons_self _ _
      · exact List.mem_cons_of_mem _ (ih _ r hr2)

theorem dedupLoop_keys_nodup (l : List ScheduleRec) :
    ∀ seen : List (String × String × String),
      ((dedupLoop l seen).map dedupKey).Nodup
      ∧ (∀ k ∈ (dedupLoop l seen).map dedupKey, k ∉ seen) := by
  induction l with
  | nil =>
    intro seen
    constructor
    · simp [dedupLoop]
    · simp [dedupLoop]
  | cons a l ih =>
    intro seen
    unfold dedupLoop
    by_cases hc : dedupKey a ∈ seen
    · simp only [hc, if_true]
      exact ih seen
    · simp only [hc, if_false]
      have hrec := ih (dedupKey a :: seen)
      constructor
      · simp only [List.map_cons, List.nodup_cons]
        refine ⟨fun hmem => ?_, hrec.1⟩
        exact (hrec.2 _ hmem) (List.mem_cons_self _ _)
      · intro k hk
        simp only [List.map_cons, List.mem_cons] at hk
        rcases hk with rfl | hk2
        · exact hc
        · intro hmem
          exact (hrec.2 _ hk2) (List.mem_cons_of_mem _ hmem)

theorem mem_probe_fold_matches (http : Http) (key code : String)
    (aps : List String) (acc : List ScheduleRec)
    (hacc : ∀ r ∈ acc,
      ((r.airline.getD {}).iataCode == some code
        || (r.airline.getD {}).icaoCode == some code) = true) :
    ∀ r ∈ aps.foldl
        (fun acc2 ap => acc2 ++ filter_by_airline (get_departures http key ap) code) acc,
      ((r.airline.getD {}).iataCode == some code
        || (r.airline.getD {}).icaoCode == some code) = true := by
  induction aps generalizing acc with
  | nil => exact hacc
  | cons ap aps ih =>
    intro r hr
    refine ih _ ?_ r hr
    intro r2 hr2
    rcases List.mem_append.mp hr2 with hl | hrt
    · exact hacc r2 hl
    · exact (List.mem_filter.mp hrt).2

/-- C7.  Every record `get_airline_schedules` returns carries an airline
IATA or ICAO code exactly (case-sensitively) equal to the requested
code, and no two returned records share the composite dedup key (flight
number, scheduled departure time, departure airport IATA code) — for
every HTTP oracle. -/
theorem airline_schedules_filtered_and_deduped (http : Http) (key code : String) :
    ((get_airline_schedules http key code).all (fun r =>
        (r.airline.getD {}).iataCode == some code
          || (r.airline.getD {}).icaoCode == some code) = true)
    ∧ ((get_airline_schedules http key code).map dedupKey).Nodup := by
  constructor
  · rw [List.all_eq_true]
    intro r hr
    have hsub := dedupLoop_subset
      (probeAirports.foldl
        (fun acc ap => acc ++ filter_by_airline (get_departures http key ap) code) []) []
      r hr
    exact mem_probe_fold_matches http key code probeAirports [] (by simp) r hsub
  · exact (dedupLoop_keys_nodup _ []).1

/-! ## C3: per-task failure isolation -/

theorem foldl_runTask_failing (good : Client) (F : ClientCall → Bool)
    (tasks : List ClientCall) (st : DbState × Totals) :
    tasks.foldl (runTask (failingClient good F)) st
      = (tasks.filter (fun t => !(F t))).foldl (runTask good) st := by
  induction tasks generalizing st with
  | nil => rfl
  | cons t ts ih =>
    by_cases hF : F t = true
    · have hskip : runTask (failingClient good F) st t = st := by
        simp [runTask, failingClient, hF]
      simp only [List.foldl_cons, List.filter_cons, hF, Bool.not_true, hskip]
      exact ih st
    · rw [Bool.not_eq_true] at hF
      have hsame : runTask (failingClient good F) st t = runTask good st t := by
        simp [runTask, failingClient, hF]
      simp only [List.foldl_cons, List.filter_cons, hF, Bool.not_false, hsame]
      exact ih (runTask good st t)

/-- C3 amended.  When the client raises on the failure set `F`, every
task outside `F` still executes with its full effect and the run
completes: the whole run equals the run of the well-behaved client over
the task lists with exactly the `F` tasks removed (failures are isolated
and never fatal).  No failure counter exists, however: the run's
`total_collected` dict has only `routes`/`schedules`/`api_calls`
(/`future_schedules`) keys, none of which counts the raised tasks (see
the counterexample). -/
theorem task_failures_are_isolated (good : Client) (F : ClientCall → Bool)
    (fut : FutureOracle) (cfgs : List RegionConfig) (st : DbState × Totals) :
    collectRegionalData (failingClient good F) fut cfgs st
      = cfgs.foldl (fun s cfg =>
          futureBlock fut cfg
            (((regionTasks cfg).filter (fun t => !(F t))).foldl (runTask good) s)) st := by
  unfold collectRegionalData runRegion
  simp only [foldl_runTask_failing]

/-- C3 counterexample.  A 5-task run (one airport, two airlines) whose
two airline tasks raise: the run's `total_collected` values are
`routes = 0`, `schedules = 9`, `api_calls = 3` and no `future_schedules`
key, while the number of raised tasks is 2 — no reported value equals
the failure count, because the code maintains no failure counter (and
returns `None`). -/
theorem run_failure_count_cex :
    ((collectRegionalData (failingClient c3Good c3F) futNone [c3Cfg]
        (emptyDb, initTotals)).2 = ⟨0, 9, 3, none⟩)
    ∧ ((regionTasks c3Cfg).length = 5)
    ∧ (((regionTasks c3Cfg).filter c3F).length = 2)
    ∧ ((2 : Nat) ≠ 0 ∧ (2 : Nat) ≠ 9 ∧ (2 : Nat) ≠ 3) := by
  decide

/-! ## C9: what the run's totals actually report -/

theorem runTask_preserves_inv (client : Client) (st : DbState × Totals) (t : ClientCall)
    (h1 : st.2.schedules = st.1.schedules.length)
    (h2 : st.2.apiCalls = st.1.apiUsage.length)
    (h3 : st.2.routes = 0) :
    ((runTask client st t).2.schedules = (runTask client st t).1.schedules.length)
    ∧ ((runTask client st t).2.apiCalls = (runTask client st t).1.apiUsage.length)
    ∧ ((runTask client st t).2.routes = 0) := by
  unfold runTask
  rcases hc : client t with e | recs
  · simp only [hc]
    exact ⟨h1, h2, h3⟩
  · simp only [hc]
    simp [log_api_usage, foldl_insert_schedule_schedules, foldl_insert_schedule_apiUsage,
      h1, h2, h3, Nat.add_comm]

theorem foldl_runTask_inv (client : Client) (tasks : List ClientCall) :
    ∀ st : DbState × Totals,
      (st.2.schedules = st.1.schedules.length ∧ st.2.apiCalls = st.1.apiUsage.length
        ∧ st.2.routes = 0) →
      ((tasks.foldl (runTask client) st).2.schedules
          = (tasks.foldl (runTask client) st).1.schedules.length
        ∧ (tasks.foldl (runTask client) st).2.apiCalls
          = (tasks.foldl (runTask client) st).1.apiUsage.length
        ∧ (tasks.foldl (runTask client) st).2.routes = 0) := by
  induction tasks with
  | nil => exact fun st h => h
  | cons t ts ih =>
    intro st h
    exact ih (runTask client st t) (runTask_preserves_inv client st t h.1 h.2.1 h.2.2)

theorem futureLoop_trivial (fut : FutureOracle) (hfut : ∀ ap, fut ap = Except.ok ([], []))
    (aps : List String) (st : DbState × Totals) : futureLoop fut aps st = st := by
  induction aps generalizing st with
  | nil =>
    rcases st with ⟨db, t⟩
    rfl
  | cons ap aps ih =>
    rcases st with ⟨db, t⟩
    unfold futureLoop collect_airport_future_data
    rw [hfut ap]
    simpa using ih (db, t)

/-- C9 amended.  After all tasks the collector's `total_collected`
counters satisfy: `routes` is always 0, `schedules` equals the number of
`flight_schedules` fact rows persisted, and `api_calls` equals the
number of `api_usage` rows written (one per successful provider call) —
stated for future probes that contribute nothing, the behaviour when
`/flightsFuture` is unavailable.  The function itself only prints these
totals and returns `None`; it maintains no failure counter, no count of
tasks attempted, and no per-region breakdown (see the counterexample). -/
theorem run_totals_reflect_store (client : Client) (fut : FutureOracle)
    (cfgs : List RegionConfig) (hfut : ∀ ap, fut ap = Except.ok ([], [])) :
    ((collectRegionalData client fut cfgs (emptyDb, initTotals)).2.routes = 0)
    ∧ ((collectRegionalData client fut cfgs (emptyDb, initTotals)).2.schedules
        = (collectRegionalData client fut cfgs (emptyDb, initTotals)).1.schedules.length)
    ∧ ((collectRegionalData client fut cfgs (emptyDb, initTotals)).2.apiCalls
        = (collectRegionalData client fut cfgs (emptyDb, initTotals)).1.apiUsage.length) := by
  have main : ∀ (cfgs2 : List RegionConfig) (st : DbState × Totals),
      (st.2.schedules = st.1.schedules.length ∧ st.2.apiCalls = st.1.apiUsage.length
        ∧ st.2.routes = 0) →
      ((collectRegionalData client fut cfgs2 st).2.schedules
          = (collectRegionalData client fut cfgs2 st).1.schedules.length
        ∧ (collectRegionalData client fut cfgs2 st).2.apiCalls
          = (collectRegionalData client fut cfgs2 st).1.apiUsage.length
        ∧ (collectRegionalData client fut cfgs2 st).2.routes = 0) := by
    intro cfgs2
    induction cfgs2 with
    | nil => exact fun st h => h
    | cons cfg cfgs2 ih =>
      intro st h
      have hregion : runRegion client fut cfg st
          = (regionTasks cfg).foldl (runTask client) st := by
        unfold runRegion futureBlock
        exact futureLoop_trivial fut hfut _ _
      unfold collectRegionalData at *
      simp only [List.foldl_cons]
      exact ih (runRegion client fut cfg st)
        (by rw [hregion]; exact foldl_runTask_inv client (regionTasks cfg) st h)
  have h0 := main cfgs (emptyDb, initTotals) (by exact ⟨rfl, rfl, rfl⟩)
  exact ⟨h0.2.2, h0.1, h0.2.1⟩

/-- Witness for C9 at a concrete client, region list and empty-probing
future oracle. -/
theorem run_totals_reflect_store_witness :
    (collectRegionalData c9Good futNone [c9Cfg] (emptyDb, initTotals)).2.routes = 0 :=
  (run_totals_reflect_store c9Good futNone [c9Cfg] (fun _ => rfl)).1

/-- C9 counterexample.  A 4-task run (one airport, one airline) whose
arrival task raises: the run's `total_collected` is
`⟨routes 0, schedules 8, api_calls 3, no future_schedules⟩` — it
contains no value equal to the 4 tasks attempted, none equal to the 1
failure, and the function returns `None` rather than any summary
structure with those fields. -/
theorem run_summary_shape_cex :
    ((collectRegionalData (failingClient c9Good c9F) futNone [c9Cfg]
        (emptyDb, initTotals)).2 = ⟨0, 8, 3, none⟩)
    ∧ ((regionTasks c9Cfg).length = 4)
    ∧ (((regionTasks c9Cfg).filter c9F).length = 1)
    ∧ ((4 : Nat) ≠ 0 ∧ (4 : Nat) ≠ 8 ∧ (4 : Nat) ≠ 3)
    ∧ ((1 : Nat) ≠ 0 ∧ (1 : Nat) ≠ 8 ∧ (1 : Nat) ≠ 3) := by
  decide

/-! ## C5: the end-to-end scenario -/

/-- C5 amended.  For the region with 2 major airports and 1 airline and
the stub returning 3 departure records, 2 arrival records and 4 raw
airline-probe records (1 duplicated on the dedup key), the run persists
19 fact rows and 7 usage rows, not 8 and 3: each airport's departures
are collected twice (the schedules pass and the routes-replacement
pass), and one usage row is written per provider call, so
2·(3+2) + 2·3 + (4−1) = 19 rows and 2·2 + 2 + 1 = 7 usage rows, with the
airline task contributing the 3 deduplicated records.  No failure
occurs; no failure counter exists to report 0. -/
theorem e2e_scenario_counts :
    ((collectRegionalData c5Client futNone [c5Cfg] (emptyDb, initTotals)).1.schedules.length
      = 19)
    ∧ ((collectRegionalData c5Client futNone [c5Cfg] (emptyDb, initTotals)).1.apiUsage.length
      = 7)
    ∧ ((collectRegionalData c5Client futNone [c5Cfg] (emptyDb, initTotals)).2
      = ⟨0, 19, 7, none⟩)
    ∧ ((get_airline_schedules c5Http c5Key "XX").length = 3) := by
  decide

/-- C5 counterexample.  The same concrete run refutes the claimed
arithmetic: it persists neither 8 fact rows nor 3 usage rows. -/
theorem e2e_scenario_cex :
    ((collectRegionalData c5Client futNone [c5Cfg] (emptyDb, initTotals)).1.schedules.length
      ≠ 8)
    ∧ ((collectRegionalData c5Client futNone [c5Cfg] (emptyDb, initTotals)).1.apiUsage.length
      ≠ 3) := by
  decide

end AEP01